import Mathlib

/-!
Verification of the local-guide client-side caching subsystem.

The development shallowly embeds the caching code: `localStorage` is an
association list from string keys to stored values, a stored value is either
a corrupted blob (one whose JSON text fails to parse) or a parsed JSON object
with the optional fields the code reads (`timestamp`, `expiration`, `data`),
and times are epoch milliseconds as naturals.  Each definition mirrors one
function of the source (cacheService, cacheManager, dataPreloader,
offlineFallbackService); JavaScript truthiness tests are modelled explicitly
where the code relies on them.
-/

/-- JavaScript `s.includes(pat)`: `pat` occurs as a contiguous substring of `s`. -/
def jsIncludes (s pat : String) : Bool :=
  decide (pat.toList <:+: s.toList)

/-- JavaScript `s.startsWith(pat)`. -/
def jsStartsWith (s pat : String) : Bool :=
  decide (pat.toList <+: s.toList)

/-- JavaScript `s.toLowerCase()`: per-character simple lowercasing. -/
def jsToLower (s : String) : String :=
  String.mk (s.data.map Char.toLower)

/-- A value stored in `localStorage`, as seen by `JSON.parse`: either a blob
that fails to parse (corrupted), or a parsed object whose `timestamp`,
`expiration` and `data` fields may each be absent (`undefined`). -/
inductive Stored (α : Type) where
  | corrupt
  | json (timestamp : Option Nat) (expiration : Option Nat) (data : Option α)
deriving DecidableEq, Repr

/-- The `localStorage` contents: an association list in key-insertion order. -/
abbrev Store (α : Type) := List (String × Stored α)

/-- `localStorage.setItem`: replace the value of an existing key in place,
or append a fresh key at the end (insertion order preserved). -/
def lsSetItem {α : Type} : Store α → String → Stored α → Store α
  | [], key, v => [(key, v)]
  | e :: rest, key, v =>
    if e.1 == key then (e.1, v) :: rest else e :: lsSetItem rest key v

/-- `localStorage.removeItem`. -/
def lsRemoveItem {α : Type} (store : Store α) (key : String) : Store α :=
  store.filter (fun e => e.1 != key)

/-- `CACHE_KEYS.RECOMMENDATIONS`. -/
def CACHE_KEYS_RECOMMENDATIONS : String := "local-guide-recommendations"

/-- `CACHE_KEYS.ESSENTIAL_DATA`. -/
def CACHE_KEYS_ESSENTIAL_DATA : String := "local-guide-essential-data"

/-- `CACHE_KEYS.TRANSLATIONS`. -/
def CACHE_KEYS_TRANSLATIONS : String := "local-guide-translations"

/-- `CACHE_KEYS.USER_PREFERENCES`. -/
def CACHE_KEYS_USER_PREFERENCES : String := "userPreferences"

/-- `CACHE_KEYS.LAST_SYNC`. -/
def CACHE_KEYS_LAST_SYNC : String := "local-guide-last-sync"

/-- `Object.values(CACHE_KEYS)`. -/
def cacheKeysList : List String :=
  [CACHE_KEYS_RECOMMENDATIONS, CACHE_KEYS_ESSENTIAL_DATA, CACHE_KEYS_TRANSLATIONS,
   CACHE_KEYS_USER_PREFERENCES, CACHE_KEYS_LAST_SYNC]

/-- `CACHE_EXPIRATION.RECOMMENDATIONS` (24 hours, ms). -/
def CACHE_EXPIRATION_RECOMMENDATIONS : Nat := 24 * 60 * 60 * 1000

/-- `CACHE_EXPIRATION.ESSENTIAL_DATA` (7 days, ms). -/
def CACHE_EXPIRATION_ESSENTIAL_DATA : Nat := 7 * 24 * 60 * 60 * 1000

/-- `CACHE_EXPIRATION.TRANSLATIONS` (30 days, ms). -/
def CACHE_EXPIRATION_TRANSLATIONS : Nat := 30 * 24 * 60 * 60 * 1000

/-- `CACHE_EXPIRATION.USER_PREFERENCES` (1 year, ms). -/
def CACHE_EXPIRATION_USER_PREFERENCES : Nat := 365 * 24 * 60 * 60 * 1000

/-- `CacheService.setCache`: store `{data, timestamp: now, expiration: now + expiration}`
under `key`.  (The quota-exceeded catch path only logs and triggers best-effort
cleanup; the store itself is unbounded in this model.) -/
def setCache {α : Type} (now : Nat) (key : String) (data : α) (expiration : Nat)
    (store : Store α) : Store α :=
  lsSetItem store key (Stored.json (some now) (some (now + expiration)) (some data))

/-- Result of `CacheService.getCache`: the returned value together with the
store as left behind (read-time expiry deletes the key). -/
structure GetResult (α : Type) where
  value : Option α
  store : Store α
deriving Repr

/-- `CacheService.getCache`: absent key gives `null`; a corrupted entry makes
`JSON.parse` throw, the catch returns `null` (the key is left in place); a
parsed envelope is deleted and `null` returned when `now > expiration`
(a missing `expiration` field compares falsy, hence never expired), and its
`data` field is returned otherwise. -/
def getCache {α : Type} (now : Nat) (key : String) (store : Store α) : GetResult α :=
  match store.lookup key with
  | none => ⟨none, store⟩
  | some Stored.corrupt => ⟨none, store⟩
  | some (Stored.json _ expOpt dataOpt) =>
    match expOpt with
    | some e => if now > e then ⟨none, lsRemoveItem store key⟩ else ⟨dataOpt, store⟩
    | none => ⟨dataOpt, store⟩

/-- The aggregated translations mapping (`Record<string, string>`), as an
association list in property-insertion order. -/
abbrev TransMap := List (String × String)

/-- JavaScript object property assignment `translations[key] = translation`. -/
def recSet : TransMap → String → String → TransMap
  | [], key, v => [(key, v)]
  | e :: rest, key, v =>
    if e.1 == key then (e.1, v) :: rest else e :: recSet rest key v

/-- JavaScript `translations?.[key] || null`: absent mapping, absent key and
the falsy empty-string value all give `null`. -/
def jsRecGet (translations : Option TransMap) (key : String) : Option String :=
  match translations with
  | none => none
  | some m =>
    match m.lookup key with
    | none => none
    | some s => if s == "" then none else some s

/-- `CacheService.getCachedTranslations`: read the aggregated mapping through
`getCache` (read-time expiry included). -/
def getCachedTranslations (now : Nat) (store : Store TransMap) : GetResult TransMap :=
  getCache now CACHE_KEYS_TRANSLATIONS store

/-- `CacheService.getCachedTranslation`. -/
def getCachedTranslation (now : Nat) (key : String) (store : Store TransMap) :
    Option String :=
  jsRecGet (getCachedTranslations now store).value key

/-- `CacheService.cacheTranslation`: read the whole mapping (or `{}`), add the
one entry, and re-store the mapping with a fresh 30-day expiration. -/
def cacheTranslation (now : Nat) (key translation : String)
    (store : Store TransMap) : Store TransMap :=
  let r := getCachedTranslations now store
  let translations := r.value.getD []
  setCache now CACHE_KEYS_TRANSLATIONS (recSet translations key translation)
    CACHE_EXPIRATION_TRANSLATIONS r.store

/-- The platform's storage-estimate primitive as the code can observe it:
missing (`storage`/`estimate` not in `navigator`), throwing, or answering
with optional `usage` and `quota` fields. -/
inductive StorageEnv where
  | unavailable
  | failing
  | avail (usage : Option Nat) (quota : Option Nat)

/-- The snapshot returned by `CacheService.getCacheInfo`. -/
structure QuotaSnapshot where
  used : Nat
  quota : Nat
  percentage : ℚ
  nearLimit : Bool
deriving Repr, DecidableEq

/-- `CacheService.getCacheInfo`: from an estimate, `used = usage || 0`,
`quota = quota || 0`, `percentage = quota > 0 ? used / quota : 0`,
`nearLimit = percentage > 0.8`; when the primitive is missing or throws,
the all-zero fail-open snapshot. -/
def getCacheInfo (env : StorageEnv) : QuotaSnapshot :=
  match env with
  | StorageEnv.avail usageOpt quotaOpt =>
    let used := usageOpt.getD 0
    let quota := quotaOpt.getD 0
    let percentage : ℚ := if 0 < quota then mkRat used quota else 0
    { used := used, quota := quota, percentage := percentage,
      nearLimit := decide (percentage > mkRat 8 10) }
  | _ => { used := 0, quota := 0, percentage := 0, nearLimit := false }

/-- `CacheManager.isEssentialKey`: the key contains one of the three
essential markers as a substring. -/
def isEssentialKey (key : String) : Bool :=
  [CACHE_KEYS_USER_PREFERENCES, CACHE_KEYS_ESSENTIAL_DATA, CACHE_KEYS_LAST_SYNC].any
    (fun essentialKey => jsIncludes key essentialKey)

/-- The removal test of `CacheManager.cleanExpiredItems` on one stored value:
a corrupted entry is removed; a parsed entry is removed when its `expiration`
field is truthy (present and nonzero) and `now` exceeds it. -/
def expiredRemovable {α : Type} (now : Nat) (v : Stored α) : Bool :=
  match v with
  | Stored.corrupt => true
  | Stored.json _ expOpt _ =>
    match expOpt with
    | some e => e != 0 && decide (now > e)
    | none => false

/-- `CacheManager.cleanExpiredItems`: over every `localStorage` key, skip keys
without the `local-guide-` marker, skip essential keys when
`preserveEssential`, then delete corrupted or expired entries. -/
def cleanExpiredItems {α : Type} (now : Nat) (preserveEssential : Bool)
    (store : Store α) : Store α :=
  store.filter (fun e =>
    if !(jsStartsWith e.1 "local-guide-") then true
    else if preserveEssential && isEssentialKey e.1 then true
    else !(expiredRemovable now e.2))

/-- `parsed.timestamp || 0`: the timestamp an entry sorts by in the age, size
and stats passes (corrupted and field-less entries count as 0). -/
def tsOf {α : Type} (v : Stored α) : Nat :=
  match v with
  | Stored.corrupt => 0
  | Stored.json tsOpt _ _ =>
    match tsOpt with
    | some t => t
    | none => 0

/-- The candidate filter shared by the age and size passes: `local-guide-`
keys that are not essential when `preserveEssential` is set. -/
def ageEligible {α : Type} (preserveEssential : Bool) (e : String × Stored α) : Bool :=
  jsStartsWith e.1 "local-guide-" && (!preserveEssential || !isEssentialKey e.1)

/-- `CacheManager.cleanByAge`: remove every eligible entry whose timestamp is
below `now - maxAge`. -/
def cleanByAge {α : Type} (now maxAge : Nat) (preserveEssential : Bool)
    (store : Store α) : Store α :=
  let cutoffTime := now - maxAge
  store.filter (fun e =>
    !(ageEligible preserveEssential e && decide (tsOf e.2 < cutoffTime)))

/-- Stable insertion of an item into a timestamp-sorted candidate list
(equal timestamps keep their original relative order, matching the stable
`Array.prototype.sort` with comparator `a.timestamp - b.timestamp`). -/
def insertByTs (x : String × Nat × Nat) : List (String × Nat × Nat) → List (String × Nat × Nat)
  | [] => [x]
  | y :: ys => if x.2.1 < y.2.1 then x :: y :: ys else y :: insertByTs x ys

/-- Stable sort by ascending timestamp. -/
def sortByTs : List (String × Nat × Nat) → List (String × Nat × Nat)
  | [] => []
  | x :: xs => insertByTs x (sortByTs xs)

/-- The removal loop of `CacheManager.cleanBySize`: walk the sorted
`(key, timestamp, size)` candidates, deleting until the accumulated size
drops to `maxSize`; return the deleted keys. -/
def lruRemove (maxSize : Nat) : List (String × Nat × Nat) → Nat → List String
  | [], _ => []
  | item :: rest, currentSize =>
    if currentSize ≤ maxSize then []
    else item.1 :: lruRemove maxSize rest (currentSize - item.2.2)

/-- `CacheManager.cleanBySize` (LRU pass): gather eligible entries with their
timestamps and serialized sizes (`sz` models `item.length`, the length of the
stored JSON text), sum their sizes, sort oldest first, and delete oldest-first
until at or under `maxSize`. -/
def cleanBySize {α : Type} (sz : String → Stored α → Nat) (maxSize : Nat)
    (preserveEssential : Bool) (store : Store α) : Store α :=
  let itemsWithMetadata :=
    (store.filter (fun e => ageEligible preserveEssential e)).map
      (fun e => (e.1, tsOf e.2, sz e.1 e.2))
  let currentSize := (itemsWithMetadata.map (fun item => item.2.2)).sum
  let removed := lruRemove maxSize (sortByTs itemsWithMetadata) currentSize
  store.filter (fun e => !(removed.contains e.1))

/-- `CacheManager.performEmergencyCleanup`: remove every `local-guide-` entry
that is not essential, unconditionally. -/
def performEmergencyCleanup {α : Type} (store : Store α) : Store α :=
  store.filter (fun e => !(jsStartsWith e.1 "local-guide-" && !isEssentialKey e.1))

/-- `MAX_STORAGE_PERCENTAGE` (0.85). -/
def MAX_STORAGE_PERCENTAGE : ℚ := mkRat 85 100

/-- `CacheManager.performCleanup`: expire pass always; age pass when the first
quota snapshot is over `maxSize` bytes or over 85% of quota; size pass when a
second snapshot still is.  The two snapshots come from the platform
(`env1`, `env2`); `sz` models the serialized length of each entry. -/
def performCleanup {α : Type} (now maxAge maxSize : Nat) (preserveEssential : Bool)
    (env1 env2 : StorageEnv) (sz : String → Stored α → Nat) (store : Store α) :
    Store α :=
  let storageInfo := getCacheInfo env1
  let s1 := cleanExpiredItems now preserveEssential store
  let s2 :=
    if storageInfo.used > maxSize ∨ storageInfo.percentage > MAX_STORAGE_PERCENTAGE
    then cleanByAge now maxAge preserveEssential s1 else s1
  let updatedStorageInfo := getCacheInfo env2
  if updatedStorageInfo.used > maxSize ∨ updatedStorageInfo.percentage > MAX_STORAGE_PERCENTAGE
  then cleanBySize sz maxSize preserveEssential s2 else s2

/-- `CacheStats`, as returned by `CacheManager.getCacheStats`. -/
structure CacheStats where
  totalItems : Nat
  totalSize : Nat
  oldestItem : Option Nat
  newestItem : Option Nat
  expiredItems : Nat
deriving Repr, DecidableEq

/-- One step of the `getCacheStats` accumulation over a `local-guide-` entry:
size always counts; a corrupted entry only bumps `expiredItems`; a parsed
entry updates oldest/newest with `timestamp || 0` and bumps `expiredItems`
when its `expiration` is truthy and past. -/
def statsStep {α : Type} (now : Nat) (sz : String → Stored α → Nat)
    (acc : CacheStats) (e : String × Stored α) : CacheStats :=
  let acc := { acc with totalSize := acc.totalSize + sz e.1 e.2 }
  match e.2 with
  | Stored.corrupt => { acc with expiredItems := acc.expiredItems + 1 }
  | Stored.json tsOpt expOpt _ =>
    let timestamp := match tsOpt with | some t => t | none => 0
    let acc := { acc with
      oldestItem := some (match acc.oldestItem with
        | none => timestamp
        | some o => if timestamp < o then timestamp else o),
      newestItem := some (match acc.newestItem with
        | none => timestamp
        | some n => if timestamp > n then timestamp else n) }
    match expOpt with
    | some ex =>
      if ex != 0 && decide (now > ex)
      then { acc with expiredItems := acc.expiredItems + 1 } else acc
    | none => acc

/-- `CacheManager.getCacheStats`: one pass over the `local-guide-` keys. -/
def getCacheStats {α : Type} (now : Nat) (sz : String → Stored α → Nat)
    (store : Store α) : CacheStats :=
  let cacheKeys := store.filter (fun e => jsStartsWith e.1 "local-guide-")
  cacheKeys.foldl (statsStep now sz)
    { totalItems := cacheKeys.length, totalSize := 0,
      oldestItem := none, newestItem := none, expiredItems := 0 }

/-- The report returned by `CacheManager.checkStorageHealth`. -/
structure HealthReport where
  healthy : Bool
  warnings : List String
  recommendations : List String
deriving Repr, DecidableEq

/-- `CacheManager.checkStorageHealth`, over the quota snapshot and stats it
awaits: criticality of storage usage, expired-item count, and cache age
(`cacheStats.oldestItem && ...` is a JavaScript truthiness test, so a missing
or zero oldest timestamp never triggers the age warning). -/
def checkStorageHealth (now : Nat) (storageInfo : QuotaSnapshot)
    (cacheStats : CacheStats) : HealthReport :=
  let step1 : Bool × List String × List String :=
    if storageInfo.percentage > mkRat 9 10 then
      (false, ["Storage is nearly full (>90%)"], ["Clear old cache data or reduce cache size"])
    else if storageInfo.percentage > mkRat 8 10 then
      (true, ["Storage usage is high (>80%)"], ["Consider clearing old cache data"])
    else (true, [], [])
  let step2 : List String × List String :=
    if cacheStats.expiredItems > 10 then
      (step1.2.1 ++ [toString cacheStats.expiredItems ++ " expired cache items found"],
       step1.2.2 ++ ["Run cache cleanup to remove expired items"])
    else step1.2
  let oldFlag : Bool :=
    match cacheStats.oldestItem with
    | some t => t != 0 && decide (now - t > 7 * 24 * 60 * 60 * 1000)
    | none => false
  let step3 : List String × List String :=
    if oldFlag then
      (step2.1 ++ ["Some cache items are very old (>7 days)"],
       step2.2 ++ ["Consider refreshing old cache data"])
    else step2
  { healthy := step1.1, warnings := step3.1, recommendations := step3.2 }

/-- The environment of one `preloadEssentialData` run, as the four fan-out
tasks observe it: whether each network prefetch fails, and whether a usable
durable-cache fallback exists for the two tasks that consult one. -/
structure PreloadEnv where
  prefsFetchFails : Bool
  hasCachedPrefs : Bool
  recsFetchFails : Bool
  hasCachedRecs : Bool
  catFetchFails : Bool

/-- The `Promise.allSettled` outcomes of the four preload tasks, in order:
user preferences and popular recommendations reject exactly when their fetch
fails and no cached fallback exists (their catch rethrows only then); the
per-category task joins its sub-tasks with `allSettled` and swallows every
failure, and the essential-cache task catches internally — both always
fulfill. -/
def preloadTaskOutcomes (env : PreloadEnv) : List Bool :=
  [!env.prefsFetchFails || env.hasCachedPrefs,
   !env.recsFetchFails || env.hasCachedRecs,
   true,
   true]

/-- The task names used in `preloadedItems` and error messages. -/
def preloadTaskNames : List String :=
  ["User Preferences", "Popular Recommendations", "Recommendation Categories",
   "Essential Cache Data"]

/-- The result record of `DataPreloader.preloadEssentialData`. -/
structure PreloadResult where
  success : Bool
  errors : List String
  preloadedItems : List String
deriving Repr, DecidableEq

/-- The `results.forEach` pass: collect fulfilled task names into
`preloadedItems` and a failure message per rejected task into `errors`,
in task order. -/
def processSettled : List Bool → List String → List String × List String
  | [], _ => ([], [])
  | _, [] => ([], [])
  | o :: os, n :: ns =>
    let rest := processSettled os ns
    if o then (n :: rest.1, rest.2)
    else (rest.1, ("Failed to preload " ++ n) :: rest.2)

/-- `DataPreloader.preloadEssentialData` (the fan-out/join path): settle the
four tasks, collect items and errors, and set
`success = errors.length <= preloadTasks.length / 2`. -/
def preloadEssentialData (env : PreloadEnv) : PreloadResult :=
  let outcomes := preloadTaskOutcomes env
  let processed := processSettled outcomes preloadTaskNames
  { success := decide (processed.2.length ≤ outcomes.length / 2),
    errors := processed.2, preloadedItems := processed.1 }

/-- `RecommendationItem` as cached and filtered offline (numeric rating kept
as a rational). -/
structure RecommendationItem where
  id : String
  name : String
  category : String
  description : String
  location : String
  cultural_insight : String
  image_url : Option String
  rating : Option ℚ
  tags : List String
  price_range : Option String
  opening_hours : Option String
  contact_info : Option String
deriving Repr, DecidableEq

/-- The query filter of `getOfflineRecommendations` with an already-lowercased
search term: case-insensitive substring match against name, description, or
any tag. -/
def matchesQueryJs (searchTerm : String) (item : RecommendationItem) : Bool :=
  jsIncludes (jsToLower item.name) searchTerm ||
  jsIncludes (jsToLower item.description) searchTerm ||
  item.tags.any (fun tag => jsIncludes (jsToLower tag) searchTerm)

/-- `OfflineFallbackService.getOfflineRecommendations`: read the cached set
(or `[]`), filter by exact category when `category != 'all'`, filter by the
lowercased query when `query` is truthy (present and nonempty), then
`slice(0, limit)`. -/
def getOfflineRecommendations (now : Nat) (store : Store (List RecommendationItem))
    (category : String) (query : Option String) (limit : Nat) :
    List RecommendationItem :=
  let recommendations :=
    ((getCache now CACHE_KEYS_RECOMMENDATIONS store).value).getD []
  let recommendations :=
    if category != "all"
    then recommendations.filter (fun item => item.category == category)
    else recommendations
  let recommendations :=
    match query with
    | some q =>
      if q != "" then recommendations.filter (matchesQueryJs (jsToLower q))
      else recommendations
    | none => recommendations
  recommendations.take limit

/-- The keep-predicate of claim C5, phrased as the spec words it: exact
category equality unless `category = 'all'`, and, when a query is given,
a case-insensitive substring match against name, description or some tag. -/
def claimKeep (category : String) (query : Option String)
    (item : RecommendationItem) : Bool :=
  (category == "all" || item.category == category) &&
  (match query with
   | none => true
   | some q =>
     jsIncludes (jsToLower item.name) (jsToLower q) ||
     jsIncludes (jsToLower item.description) (jsToLower q) ||
     item.tags.any (fun tag => jsIncludes (jsToLower tag) (jsToLower q)))

/-- Every string contains the empty string as a substring. -/
theorem jsIncludes_empty (s : String) : jsIncludes s "" = true := by
  simp only [jsIncludes, decide_eq_true_eq]
  exact List.nil_infix

/-- Writing a key makes exactly that value readable under the key. -/
theorem lookup_lsSetItem_self {α : Type} (store : Store α) (k : String)
    (v : Stored α) : (lsSetItem store k v).lookup k = some v := by
  induction store with
  | nil => simp [lsSetItem, List.lookup]
  | cons e rest ih =>
    obtain ⟨a, b⟩ := e
    by_cases h : a == k
    · have hk : a = k := by simpa using h
      subst hk
      simp [lsSetItem, List.lookup]
    · have hk : a ≠ k := by simpa using h
      have h2 : (k == a) = false := by simp [Ne.symm hk]
      simp [lsSetItem, h, List.lookup, h2, ih]

/-- Setting one property of a mapping leaves every other key's lookup alone. -/
theorem lookup_recSet_ne (m : TransMap) (k k2 v : String) (h : k2 ≠ k) :
    (recSet m k v).lookup k2 = m.lookup k2 := by
  have hb : (k2 == k) = false := by simp [h]
  induction m with
  | nil => simp [recSet, List.lookup, hb]
  | cons e rest ih =>
    obtain ⟨a, b⟩ := e
    by_cases he : a == k
    · have hk : a = k := by simpa using he
      subst hk
      simp [recSet, List.lookup, hb]
    · by_cases h2 : k2 == a
      · simp [recSet, he, List.lookup, h2]
      · simp [recSet, he, List.lookup, h2, ih]

/-- A filter whose predicate holds on every entry carrying key `k` does not
change what `k` looks up to. -/
theorem lookup_filter_of_keep {α : Type} (p : String × Stored α → Bool)
    (k : String) (l : Store α) (hk : ∀ v, p (k, v) = true) :
    (l.filter p).lookup k = l.lookup k := by
  induction l with
  | nil => rfl
  | cons e rest ih =>
    obtain ⟨a, b⟩ := e
    by_cases hkk : k == a
    · have hk1 : k = a := by simpa using hkk
      subst hk1
      have hp : p (k, b) = true := hk b
      simp [List.filter_cons, hp, List.lookup]
    · by_cases hp : p (a, b)
      · simp [List.filter_cons, hp, List.lookup, hkk, ih]
      · simp [List.filter_cons, hp, List.lookup, hkk, ih]

/-- Membership after stable insertion. -/
theorem mem_insertByTs (x y : String × Nat × Nat) (l : List (String × Nat × Nat))
    (h : x ∈ insertByTs y l) : x = y ∨ x ∈ l := by
  induction l with
  | nil => simpa [insertByTs] using h
  | cons z rest ih =>
    by_cases hc : y.2.1 < z.2.1
    · simp [insertByTs, hc] at h
      rcases h with h | h | h
      · exact Or.inl h
      · exact Or.inr (by simp [h])
      · exact Or.inr (by simp [h])
    · simp [insertByTs, hc] at h
      rcases h with h | h
      · exact Or.inr (by simp [h])
      · rcases ih h with h | h
        · exact Or.inl h
        · exact Or.inr (by simp [h])

/-- The stable sort permutes; membership is preserved. -/
theorem mem_sortByTs (x : String × Nat × Nat) (l : List (String × Nat × Nat))
    (h : x ∈ sortByTs l) : x ∈ l := by
  induction l with
  | nil => simp [sortByTs] at h
  | cons z rest ih =>
    rcases mem_insertByTs x z (sortByTs rest) (by simpa [sortByTs] using h) with h | h
    · simp [h]
    · simp [ih h]

/-- Every key deleted by the LRU loop names one of its candidates. -/
theorem mem_lruRemove (maxSize : Nat) (l : List (String × Nat × Nat))
    (cur : Nat) (k : String) (h : k ∈ lruRemove maxSize l cur) :
    k ∈ l.map (fun x => x.1) := by
  induction l generalizing cur with
  | nil => simp [lruRemove] at h
  | cons item rest ih =>
    by_cases hc : cur ≤ maxSize
    · simp [lruRemove, hc] at h
    · simp only [lruRemove, if_neg hc, List.mem_cons] at h
      rcases h with h | h
      · simp [h]
      · simp [ih _ h]

/-- The expired-sweep keeps every entry stored under an essential key. -/
theorem cleanExpiredItems_lookup_essential {α : Type} (now : Nat)
    (store : Store α) (key : String) (h : isEssentialKey key = true) :
    (cleanExpiredItems now true store).lookup key = store.lookup key := by
  apply lookup_filter_of_keep
  intro v
  by_cases hs : jsStartsWith key "local-guide-"
  · simp [hs, h]
  · simp [hs]

/-- The age pass keeps every entry stored under an essential key. -/
theorem cleanByAge_lookup_essential {α : Type} (now maxAge : Nat)
    (store : Store α) (key : String) (h : isEssentialKey key = true) :
    (cleanByAge now maxAge true store).lookup key = store.lookup key := by
  apply lookup_filter_of_keep
  intro v
  simp [ageEligible, h]

/-- The size (LRU) pass keeps every entry stored under an essential key. -/
theorem cleanBySize_lookup_essential {α : Type} (sz : String → Stored α → Nat)
    (maxSize : Nat) (store : Store α) (key : String)
    (h : isEssentialKey key = true) :
    (cleanBySize sz maxSize true store).lookup key = store.lookup key := by
  apply lookup_filter_of_keep
  intro v
  simp only [Bool.not_eq_true']
  rw [Bool.eq_false_iff]
  intro hc
  have hmem : key ∈ List.map (fun x => x.1)
      (sortByTs ((store.filter (fun e => ageEligible true e)).map
        (fun e => (e.1, tsOf e.2, sz e.1 e.2)))) := by
    apply mem_lruRemove
    simpa using hc
  rcases List.mem_map.mp hmem with ⟨x, hx, hxk⟩
  have hx2 := mem_sortByTs x _ hx
  rcases List.mem_map.mp hx2 with ⟨e, he, hex⟩
  have hel : ageEligible true e = true := List.of_mem_filter he
  have hek : e.1 = key := by rw [← hxk, ← hex]
  rw [ageEligible, hek, h] at hel
  simp at hel

/-- C1 (amended): for every parseable stored envelope, `getCache` returns
absent iff `now > expiration` at call time (independent of any sweep), it
deletes the key exactly on expiry, and returns the stored data otherwise;
when the stored envelope fails to parse, `getCache` returns absent but
leaves the corrupted key in place (no deletion). -/
theorem getCache_expiry_correct {α : Type} (now : Nat) (key : String)
    (store : Store α) :
    (∀ (ts : Option Nat) (e : Nat) (v : α),
      store.lookup key = some (Stored.json ts (some e) (some v)) →
      (((getCache now key store).value = none) ↔ now > e)
      ∧ (now > e → (getCache now key store).store = lsRemoveItem store key)
      ∧ (¬ now > e → (getCache now key store).value = some v
          ∧ (getCache now key store).store = store))
    ∧ (store.lookup key = some Stored.corrupt →
      (getCache now key store).value = none
      ∧ (getCache now key store).store = store) := by
  constructor
  · intro ts e v h
    by_cases hg : now > e
    · simp [getCache, h, hg]
    · simp [getCache, h, hg]
  · intro h
    simp [getCache, h]

/-- Witness for C1: a fresh envelope (expiration 5) read at time 10 is absent
and deleted; read at time 2 it yields the stored data. -/
theorem getCache_expiry_correct_witness :
    (getCache 10 "k" [("k", Stored.json (some 0) (some 5) (some (7 : Nat)))]).value = none
    ∧ (getCache 2 "k" [("k", Stored.json (some 0) (some 5) (some (7 : Nat)))]).value = some 7 :=
  ⟨((getCache_expiry_correct 10 "k"
      [("k", Stored.json (some 0) (some 5) (some (7 : Nat)))]).1
      (some 0) 5 7 rfl).1.mpr (by decide),
   (((getCache_expiry_correct 2 "k"
      [("k", Stored.json (some 0) (some 5) (some (7 : Nat)))]).1
      (some 0) 5 7 rfl).2.2 (by decide)).1⟩

/-- Counterexample to C1 as stated: on a corrupted entry `getCache` returns
absent but does not delete the key — the corrupted entry is still stored
afterwards, contradicting "if parse fails ... deletes the key". -/
theorem getCache_corrupt_not_deleted :
    (getCache 0 "k" [("k", (Stored.corrupt : Stored Unit))]).value = none
    ∧ ((getCache 0 "k" [("k", (Stored.corrupt : Stored Unit))]).store).lookup "k"
        = some Stored.corrupt := by
  constructor
  · rfl
  · rfl

/-- C7: a `put` with any positive TTL followed immediately by a `get` of the
same key (no time elapsed) returns the value just stored. -/
theorem setCache_getCache_roundtrip {α : Type} (now : Nat) (key : String)
    (v : α) (t : Nat) (store : Store α) (h : 0 < t) :
    (getCache now key (setCache now key v t store)).value = some v := by
  have hl := lookup_lsSetItem_self store key
    (Stored.json (some now) (some (now + t)) (some v))
  have hg : ¬ now > now + t := by omega
  simp [getCache, setCache, hl, hg]

/-- Witness for C7: storing 42 under TTL 3 at time 5 and reading it back at
time 5 yields 42. -/
theorem setCache_getCache_roundtrip_witness :
    0 < 3 ∧ (getCache 5 "k" (setCache 5 "k" (42 : Nat) 3 [])).value = some 42 :=
  ⟨by decide, setCache_getCache_roundtrip 5 "k" 42 3 [] (by decide)⟩

/-- C10: writing one translation into a non-expired aggregated mapping stores
the whole mapping back with expiration `now + 30 days` (one write refreshes
the TTL governing every entry), and every translation under any other key is
retrieved afterwards (at any time within the new TTL) exactly as it was
retrieved before the write. -/
theorem cacheTranslation_frame (now : Nat) (key translation : String)
    (store : Store TransMap) (ts : Option Nat) (e : Nat) (m : TransMap)
    (h : store.lookup CACHE_KEYS_TRANSLATIONS = some (Stored.json ts (some e) (some m)))
    (hx : ¬ now > e) :
    (cacheTranslation now key translation store).lookup CACHE_KEYS_TRANSLATIONS
      = some (Stored.json (some now) (some (now + CACHE_EXPIRATION_TRANSLATIONS))
          (some (recSet m key translation)))
    ∧ ∀ (now2 : Nat) (k2 : String), k2 ≠ key →
        ¬ now2 > now + CACHE_EXPIRATION_TRANSLATIONS →
        getCachedTranslation now2 k2 (cacheTranslation now key translation store)
          = getCachedTranslation now k2 store := by
  have hread : getCachedTranslations now store = ⟨some m, store⟩ := by
    simp [getCachedTranslations, getCache, h, hx]
  have hct : cacheTranslation now key translation store
      = lsSetItem store CACHE_KEYS_TRANSLATIONS
          (Stored.json (some now) (some (now + CACHE_EXPIRATION_TRANSLATIONS))
            (some (recSet m key translation))) := by
    simp [cacheTranslation, hread, setCache]
  have hnew := lookup_lsSetItem_self store CACHE_KEYS_TRANSLATIONS
    (Stored.json (some now) (some (now + CACHE_EXPIRATION_TRANSLATIONS))
      (some (recSet m key translation)))
  constructor
  · rw [hct]
    exact hnew
  · intro now2 k2 hk2 hnow2
    rw [hct]
    simp [getCachedTranslation, getCachedTranslations, getCache, hnew, hnow2, h, hx,
      jsRecGet, lookup_recSet_ne m key k2 translation hk2]

/-- Witness for C10: with `{a: x}` cached unexpired (expiration 100), writing
`b` at time 50 leaves `a` retrievable at time 60 with the same result as
before the write. -/
theorem cacheTranslation_frame_witness :
    (cacheTranslation 50 "b" "y"
        [(CACHE_KEYS_TRANSLATIONS, Stored.json (some 0) (some 100) (some [("a", "x")]))]).lookup
        CACHE_KEYS_TRANSLATIONS
      = some (Stored.json (some 50) (some (50 + CACHE_EXPIRATION_TRANSLATIONS))
          (some (recSet [("a", "x")] "b" "y")))
    ∧ getCachedTranslation 60 "a"
        (cacheTranslation 50 "b" "y"
          [(CACHE_KEYS_TRANSLATIONS, Stored.json (some 0) (some 100) (some [("a", "x")]))])
      = getCachedTranslation 50 "a"
          [(CACHE_KEYS_TRANSLATIONS, Stored.json (some 0) (some 100) (some [("a", "x")]))] :=
  ⟨(cacheTranslation_frame 50 "b" "y"
      [(CACHE_KEYS_TRANSLATIONS, Stored.json (some 0) (some 100) (some [("a", "x")]))]
      (some 0) 100 [("a", "x")] rfl (by decide)).1,
   (cacheTranslation_frame 50 "b" "y"
      [(CACHE_KEYS_TRANSLATIONS, Stored.json (some 0) (some 100) (some [("a", "x")]))]
      (some 0) 100 [("a", "x")] rfl (by decide)).2
     60 "a" (by decide) (by decide)⟩

/-- C2 (amended): `performCleanup` with `preserveEssential: true` removes no
EssentialKey entry in any of its three phases — not even a corrupted one,
because the essential-key skip happens before the corruption check. -/
theorem performCleanup_preserves_essential {α : Type} (now maxAge maxSize : Nat)
    (env1 env2 : StorageEnv) (sz : String → Stored α → Nat) (store : Store α)
    (key : String) (h : isEssentialKey key = true) :
    (performCleanup now maxAge maxSize true env1 env2 sz store).lookup key
      = store.lookup key := by
  rw [performCleanup]
  by_cases h1 : (getCacheInfo env1).used > maxSize
      ∨ (getCacheInfo env1).percentage > MAX_STORAGE_PERCENTAGE
  <;> by_cases h2 : (getCacheInfo env2).used > maxSize
      ∨ (getCacheInfo env2).percentage > MAX_STORAGE_PERCENTAGE
  <;> simp only [h1, h2, if_pos, if_neg, not_true, not_false_iff, if_true, if_false]
  <;> simp only [cleanBySize_lookup_essential sz maxSize _ key h,
        cleanByAge_lookup_essential now maxAge _ key h,
        cleanExpiredItems_lookup_essential now _ key h]

/-- Witness for C2: a parsed `userPreferences` entry survives a full
`performCleanup({preserveEssential: true})` untouched. -/
theorem performCleanup_preserves_essential_witness :
    isEssentialKey CACHE_KEYS_USER_PREFERENCES = true
    ∧ (performCleanup 1 86400000 52428800 true StorageEnv.unavailable
        StorageEnv.unavailable (fun _ _ => 20)
        [(CACHE_KEYS_USER_PREFERENCES, (Stored.json (some 0) (some 2) (some ()) : Stored Unit))]).lookup
        CACHE_KEYS_USER_PREFERENCES
      = [(CACHE_KEYS_USER_PREFERENCES, (Stored.json (some 0) (some 2) (some ()) : Stored Unit))].lookup
        CACHE_KEYS_USER_PREFERENCES :=
  ⟨by decide,
   performCleanup_preserves_essential 1 86400000 52428800
     StorageEnv.unavailable StorageEnv.unavailable (fun _ _ => 20)
     [(CACHE_KEYS_USER_PREFERENCES, (Stored.json (some 0) (some 2) (some ()) : Stored Unit))]
     CACHE_KEYS_USER_PREFERENCES (by decide)⟩

/-- Counterexample to C2 as stated: a corrupted entry under the essential key
`local-guide-essential-data` is NOT removed by
`performCleanup({preserveEssential: true})` — the essential skip precedes the
corruption check, contradicting "corrupted data is always removed regardless
of essential status". -/
theorem performCleanup_keeps_corrupt_essential :
    isEssentialKey CACHE_KEYS_ESSENTIAL_DATA = true
    ∧ (performCleanup 1 86400000 52428800 true StorageEnv.unavailable
        StorageEnv.unavailable (fun _ _ => 27)
        [(CACHE_KEYS_ESSENTIAL_DATA, (Stored.corrupt : Stored Unit))]).lookup
        CACHE_KEYS_ESSENTIAL_DATA = some Stored.corrupt := by
  constructor
  · decide
  · decide

/-- C6 (amended): every `CACHE_KEYS` value except `USER_PREFERENCES` carries
the shared `local-guide-` marker; the `USER_PREFERENCES` key
(`'userPreferences'`) does not, so routines that select keys by that marker
observe every domain except the UserPreferences entry. -/
theorem cache_keys_marker_except_userPreferences :
    (cacheKeysList.all (fun key =>
        key == CACHE_KEYS_USER_PREFERENCES
        || jsStartsWith key "local-guide-")) = true
    ∧ jsStartsWith CACHE_KEYS_USER_PREFERENCES "local-guide-" = false := by
  constructor
  · decide
  · decide

/-- Counterexample to C6 as stated: the `userPreferences` durable key lacks
the `local-guide-` marker, and the expired-sweep (run here with
`preserveEssential: false` so only key selection matters) does not observe
it — a corrupted entry under it survives, while the same corrupted entry
under a marker-bearing key is removed. -/
theorem userPreferences_key_not_observed :
    jsStartsWith CACHE_KEYS_USER_PREFERENCES "local-guide-" = false
    ∧ cleanExpiredItems 1 false
        [(CACHE_KEYS_USER_PREFERENCES, (Stored.corrupt : Stored Unit))]
      = [(CACHE_KEYS_USER_PREFERENCES, Stored.corrupt)]
    ∧ cleanExpiredItems 1 false
        [(CACHE_KEYS_RECOMMENDATIONS, (Stored.corrupt : Stored Unit))] = [] := by
  refine ⟨by decide, by decide, by decide⟩

/-- C3: in every run of the preload orchestration, the number of reported
errors equals the number of rejected fan-out tasks `f`, the fan-out width is
`n = 4`, and `success == (f <= n/2)` — majority-based, not all-or-nothing. -/
theorem preload_majority_success (env : PreloadEnv) :
    (preloadTaskOutcomes env).length = 4
    ∧ (preloadEssentialData env).errors.length = (preloadTaskOutcomes env).count false
    ∧ (preloadEssentialData env).success
        = decide ((preloadTaskOutcomes env).count false
            ≤ (preloadTaskOutcomes env).length / 2) := by
  obtain ⟨p, hp, r, hr, c⟩ := env
  cases p <;> cases hp <;> cases r <;> cases hr <;> cases c <;>
    refine ⟨by decide, by decide, by decide⟩

/-- C4 (amended): when the per-category recommendations task's fetches fail
with no prior cache while the other three tasks succeed, the run reports
`success == true` and `errors.length == 0` — the categories task joins its
sub-fetches with `Promise.allSettled` and swallows their failures, so no
error is propagated and sibling tasks are unaffected. -/
theorem preload_category_failure_swallowed (env : PreloadEnv)
    (h1 : env.prefsFetchFails = false) (h2 : env.recsFetchFails = false) :
    (preloadEssentialData env).success = true
    ∧ (preloadEssentialData env).errors = [] := by
  obtain ⟨p, hp, r, hr, c⟩ := env
  simp only at h1 h2
  subst h1
  subst h2
  cases hp <;> cases hr <;> cases c <;> refine ⟨by decide, by decide⟩

/-- Witness for C4: the categories task failing with no prior cache, the
other three tasks succeeding. -/
theorem preload_category_failure_swallowed_witness :
    (preloadEssentialData ⟨false, false, false, false, true⟩).success = true
    ∧ (preloadEssentialData ⟨false, false, false, false, true⟩).errors = [] :=
  preload_category_failure_swallowed ⟨false, false, false, false, true⟩ rfl rfl

/-- Counterexample to C4 as stated: in exactly that scenario the result has
`errors.length == 0`, not `1` — the categories task's failure never reaches
the `errors` list. -/
theorem preload_category_failure_no_error_entry :
    (preloadEssentialData ⟨false, false, false, false, true⟩).success = true
    ∧ (preloadEssentialData ⟨false, false, false, false, true⟩).errors.length = 0
    ∧ (preloadEssentialData ⟨false, false, false, false, true⟩).errors.length ≠ 1 := by
  refine ⟨by decide, by decide, by decide⟩

/-- C9: the quota snapshot computes `percentage = usedBytes / quotaBytes`
(0 when the quota is 0) and `nearLimit = (percentage > 0.8)`; when the
platform's storage-estimate primitive is missing or its query throws, the
snapshot is `{usedBytes: 0, quotaBytes: 0, percentage: 0, nearLimit: false}`
— fail open, never an error. -/
theorem getCacheInfo_fail_open :
    getCacheInfo StorageEnv.unavailable
      = { used := 0, quota := 0, percentage := 0, nearLimit := false }
    ∧ getCacheInfo StorageEnv.failing
      = { used := 0, quota := 0, percentage := 0, nearLimit := false }
    ∧ ∀ env : StorageEnv,
        (getCacheInfo env).percentage
          = ((getCacheInfo env).used : ℚ) / ((getCacheInfo env).quota : ℚ)
        ∧ (getCacheInfo env).nearLimit
          = decide ((getCacheInfo env).percentage > (8 : ℚ) / 10) := by
  have hthr : (mkRat 8 10 : ℚ) = (8 : ℚ) / 10 := by
    rw [Rat.mkRat_eq_div]; norm_num
  refine ⟨rfl, rfl, ?_⟩
  intro env
  cases env with
  | unavailable =>
    refine ⟨by norm_num [getCacheInfo], ?_⟩
    simp only [getCacheInfo]
    rw [eq_comm, decide_eq_false_iff_not]
    norm_num
  | failing =>
    refine ⟨by norm_num [getCacheInfo], ?_⟩
    simp only [getCacheInfo]
    rw [eq_comm, decide_eq_false_iff_not]
    norm_num
  | avail u q =>
    constructor
    · simp only [getCacheInfo]
      by_cases hq : 0 < q.getD 0
      · rw [if_pos hq, Rat.mkRat_eq_div]
        push_cast
        rfl
      · rw [if_neg hq]
        have h0 : q.getD 0 = 0 := by omega
        rw [h0]
        norm_num
    · simp only [getCacheInfo]
      rw [hthr]

/-- C8 (amended): `checkStorageHealth` reports `healthy == false` exactly
when the quota percentage exceeds 0.9; its warnings include the critical
message when `percentage > 0.9`, the advisory message when
`percentage ∈ (0.8, 0.9]`, the expired-items message when
`expiredItemCount > 10`, and the old-items message when the oldest item
timestamp is truthy (present and nonzero) and older than 7 days; warnings
and recommendations are paired one-to-one. -/
theorem checkStorageHealth_spec (now : Nat) (info : QuotaSnapshot)
    (stats : CacheStats) :
    ((checkStorageHealth now info stats).healthy = false
      ↔ info.percentage > (9 : ℚ) / 10)
    ∧ (info.percentage > (9 : ℚ) / 10 →
        "Storage is nearly full (>90%)" ∈ (checkStorageHealth now info stats).warnings)
    ∧ (¬ info.percentage > (9 : ℚ) / 10 → info.percentage > (8 : ℚ) / 10 →
        "Storage usage is high (>80%)" ∈ (checkStorageHealth now info stats).warnings)
    ∧ (stats.expiredItems > 10 →
        (toString stats.expiredItems ++ " expired cache items found")
          ∈ (checkStorageHealth now info stats).warnings)
    ∧ (∀ t : Nat, stats.oldestItem = some t → t ≠ 0 →
        now - t > 7 * 24 * 60 * 60 * 1000 →
        "Some cache items are very old (>7 days)"
          ∈ (checkStorageHealth now info stats).warnings)
    ∧ (checkStorageHealth now info stats).warnings.length
        = (checkStorageHealth now info stats).recommendations.length := by
  have hm9 : (mkRat 9 10 : ℚ) = (9 : ℚ) / 10 := by
    rw [Rat.mkRat_eq_div]; norm_num
  have hm8 : (mkRat 8 10 : ℚ) = (8 : ℚ) / 10 := by
    rw [Rat.mkRat_eq_div]; norm_num
  refine ⟨?_, ?_, ?_, ?_, ?_, ?_⟩
  · by_cases h9 : info.percentage > (9 : ℚ) / 10
    · simp [checkStorageHealth, hm9, hm8, h9]
    · by_cases h8 : info.percentage > (8 : ℚ) / 10 <;>
        simp [checkStorageHealth, hm9, hm8, h9, h8]
  · intro hp
    simp [checkStorageHealth, hm9, hm8, hp]
    repeat' split
    all_goals simp
  · intro hp hp8
    simp [checkStorageHealth, hm9, hm8, hp, hp8]
    repeat' split
    all_goals simp
  · intro hp
    simp [checkStorageHealth, hm9, hm8, hp]
    repeat' split
    all_goals simp
  · intro t ht hne hgt
    have hof : (t != 0 && decide (now - t > 7 * 24 * 60 * 60 * 1000)) = true := by
      simp [hne, hgt]
    simp [checkStorageHealth, hm9, hm8, ht, hof]
  · simp only [checkStorageHealth]
    repeat' split
    all_goals simp

/-- Witness for C8: with a platform estimate of 95 used / 100 quota
(percentage 0.95), 11 expired items and a nonzero week-old oldest timestamp,
the report is unhealthy and carries the critical, expired and old-item
warnings. -/
theorem checkStorageHealth_spec_witness :
    (checkStorageHealth 604800002 (getCacheInfo (StorageEnv.avail (some 95) (some 100)))
        ⟨1, 13, some 1, some 1, 11⟩).healthy = false
    ∧ "Storage is nearly full (>90%)"
        ∈ (checkStorageHealth 604800002 (getCacheInfo (StorageEnv.avail (some 95) (some 100)))
            ⟨1, 13, some 1, some 1, 11⟩).warnings
    ∧ "11 expired cache items found"
        ∈ (checkStorageHealth 604800002 (getCacheInfo (StorageEnv.avail (some 95) (some 100)))
            ⟨1, 13, some 1, some 1, 11⟩).warnings
    ∧ "Some cache items are very old (>7 days)"
        ∈ (checkStorageHealth 604800002 (getCacheInfo (StorageEnv.avail (some 95) (some 100)))
            ⟨1, 13, some 1, some 1, 11⟩).warnings := by
  have h9 : (getCacheInfo (StorageEnv.avail (some 95) (some 100))).percentage
      > (9 : ℚ) / 10 := by
    norm_num [getCacheInfo, Rat.mkRat_eq_div]
  refine ⟨(checkStorageHealth_spec 604800002 _ _).1.mpr h9,
    (checkStorageHealth_spec 604800002 _ _).2.1 h9,
    (checkStorageHealth_spec 604800002 _ _).2.2.2.1 (by norm_num),
    (checkStorageHealth_spec 604800002 _ _).2.2.2.2.1 1 rfl (by norm_num) (by norm_num)⟩

/-- Counterexample to C8 as stated: the last-sync entry is stored as a bare
number, so `getCacheStats` assigns it timestamp `0` (`parsed.timestamp || 0`)
and reports `oldestItem = 0`; at any time past 7 days the oldest item is
older than 7 days, yet `checkStorageHealth` emits no warning at all, because
`cacheStats.oldestItem && ...` is falsy at 0. -/
theorem checkStorageHealth_missing_old_warning :
    (getCacheStats 604800001 (fun _ _ => 13)
        [(CACHE_KEYS_LAST_SYNC, (Stored.json none none none : Stored Unit))]).oldestItem
      = some 0
    ∧ 604800001 - 0 > 7 * 24 * 60 * 60 * 1000
    ∧ (checkStorageHealth 604800001 (getCacheInfo StorageEnv.unavailable)
        (getCacheStats 604800001 (fun _ _ => 13)
          [(CACHE_KEYS_LAST_SYNC, (Stored.json none none none : Stored Unit))])).warnings
      = [] := by
  refine ⟨by decide, by decide, by decide⟩

/-- C5: `getOfflineRecommendations` returns exactly the first `limit` cached
items that pass the category test (exact equality unless `category = 'all'`)
and the query test (case-insensitive substring of name, description or some
tag, when a query is given — an empty query matches everything, exactly as
the substring reading prescribes), in cache order; and it is deterministic:
the same cache snapshot and parameters give the same result. -/
theorem getOfflineRecommendations_spec (now : Nat)
    (store : Store (List RecommendationItem)) (category : String)
    (query : Option String) (limit : Nat) :
    getOfflineRecommendations now store category query limit
      = ((((getCache now CACHE_KEYS_RECOMMENDATIONS store).value).getD []).filter
          (claimKeep category query)).take limit
    ∧ getOfflineRecommendations now store category query limit
      = getOfflineRecommendations now store category query limit := by
  refine ⟨?_, rfl⟩
  simp only [getOfflineRecommendations]
  congr 1
  rcases query with _ | q
  · by_cases hc : (category == "all") = true
    · have hb : (category != "all") = false := by simp [bne, hc]
      simp only [hb, Bool.false_eq_true, if_false]
      rw [eq_comm, List.filter_eq_self]
      intro a _
      simp [claimKeep, hc]
    · have hb : (category != "all") = true := by simp [bne, hc]
      simp only [hb, if_true]
      apply List.filter_congr
      intro a _
      simp [claimKeep, hc]
  · by_cases hq : (q != "") = true
    · by_cases hc : (category == "all") = true
      · have hb : (category != "all") = false := by simp [bne, hc]
        simp only [hq, hb, Bool.false_eq_true, if_false, if_true]
        apply List.filter_congr
        intro a _
        simp [claimKeep, hc, matchesQueryJs]
      · have hb : (category != "all") = true := by simp [bne, hc]
        simp only [hq, hb, if_true]
        rw [List.filter_filter]
        apply List.filter_congr
        intro a _
        simp [claimKeep, hc, matchesQueryJs, Bool.and_comm]
    · simp only [Bool.not_eq_true] at hq
      have hq0 : q = "" := by simpa [bne] using hq
      subst hq0
      simp only [hq, Bool.false_eq_true, if_false]
      have hempty : ∀ item : RecommendationItem,
          claimKeep category (some "") item
            = (category == "all" || item.category == category) := by
        intro item
        simp [claimKeep, jsIncludes_empty, show jsToLower "" = "" from rfl]
      by_cases hc : (category == "all") = true
      · have hb : (category != "all") = false := by simp [bne, hc]
        simp only [hb, Bool.false_eq_true, if_false]
        rw [eq_comm, List.filter_eq_self]
        intro a _
        rw [hempty]
        simp [hc]
      · have hb : (category != "all") = true := by simp [bne, hc]
        simp only [hb, if_true]
        apply List.filter_congr
        intro a _
        rw [hempty]
        simp [hc]
